import Mathlib

/-!
Verification of `scripts/extract-session-key.py`.

The script probes browser cookie stores in a fixed order (chrome, firefox,
edge, chromium) for the `.claude.ai` cookies `sessionKey` and
`lastActiveOrg`, printing one JSON line describing the outcome.

Shallow embedding: the environment supplies, per browser name, the outcome
of calling its cookie-store reader (`browser_func(domain_name='.claude.ai')`
followed by iterating the returned jar): either an exception at open time
(`PermissionError` or any other exception), an exception raised part-way
through iterating the jar (carrying the records scanned before the error),
or a complete list of cookie records.  The program result records the
printed lines, the exit code (0 when falling off the end of
`extract_session_key`, 1 for `sys.exit(1)`), and the ordered trace of
browsers whose store reader was invoked.
-/

namespace SessionKeyScript

/-- A cookie record: `cookie.name` and `cookie.value` as read from a jar. -/
structure Cookie where
  name : String
  value : String
deriving DecidableEq

/-- Exception class raised when opening a browser's cookie store. -/
inductive OpenErr where
  | permission
  | other
deriving DecidableEq

/-- Outcome of asking one browser for its `.claude.ai` cookie jar. -/
inductive BrowserOutcome where
  | openError (e : OpenErr)
  | scanError (scanned : List Cookie)
  | ok (cookies : List Cookie)
deriving DecidableEq

/-- Python truthiness of the `session_key` / `org_id` locals: `None` and the
empty string are falsy, every other string is truthy. -/
def truthy : Option String → Bool
  | none => false
  | some s => !(s == "")

/-- The cookie-scan loop of lines 44-48: fold over the jar, assigning
`session_key` on a cookie named `sessionKey` and `org_id` on a cookie named
`lastActiveOrg` (an `elif`, so a cookie sets at most one of the two). -/
def scanCookies : List Cookie → Option String × Option String → Option String × Option String
  | [], acc => acc
  | c :: cs, (sk, org) =>
    if c.name == "sessionKey" then scanCookies cs (some c.value, org)
    else if c.name == "lastActiveOrg" then scanCookies cs (sk, some c.value)
    else scanCookies cs (sk, org)

/-- The success payload printed on lines 50-57. -/
structure SuccessResult where
  sessionKey : String
  browser : String
  organizationId : Option String
deriving DecidableEq

/-- One printed JSON line: either the success object or an error object
with an optional `install` hint. -/
inductive ProbeResult where
  | success (r : SuccessResult)
  | failure (error : String) (install : Option String)
deriving DecidableEq

/-- Lines 44-58 for one successfully opened store: scan the jar from freshly
reset accumulators and, if `session_key` is truthy, build the result object,
including `organizationId` only when `org_id` is truthy. -/
def tryStore (name : String) (cookies : List Cookie) : Option SuccessResult :=
  let res := scanCookies cookies (none, none)
  if truthy res.1 then
    some { sessionKey := res.1.getD "", browser := name,
           organizationId := if truthy res.2 then res.2 else none }
  else none

/-- The probe loop of lines 38-65 over a list of browser names: returns the
first success (if any) and the ordered trace of browsers whose store reader
was invoked.  `openError` and `scanError` are the two `except` arms; both
`continue`. -/
def probeLoop (env : String → BrowserOutcome) : List String → Option SuccessResult × List String
  | [] => (none, [])
  | name :: rest =>
    match env name with
    | .openError _ =>
      let next := probeLoop env rest
      (next.1, name :: next.2)
    | .scanError _ =>
      let next := probeLoop env rest
      (next.1, name :: next.2)
    | .ok cookies =>
      match tryStore name cookies with
      | some r => (some r, [name])
      | none =>
        let next := probeLoop env rest
        (next.1, name :: next.2)

/-- The fixed browser order of lines 31-36. -/
def browsers : List String := ["chrome", "firefox", "edge", "chromium"]

/-- Fixed strings printed by the script. -/
def notInstalledMsg : String := "browser_cookie3 not installed"

def installHint : String := "pip install browser-cookie3"

def notFoundMsg : String := "No Claude.ai session found in any browser"

/-- Result of one program run: printed lines, exit code, and the ordered
trace of browsers whose store reader was invoked. -/
structure ProgramRun where
  output : List ProbeResult
  exitCode : Nat
  opened : List String
deriving DecidableEq

/-- Model of `extract_session_key` (lines 20-68): `capability` is whether
the `browser_cookie3` library import succeeds; `env` gives each browser's
store outcome. -/
def extract_session_key (capability : Bool) (env : String → BrowserOutcome) : ProgramRun :=
  if capability then
    match probeLoop env browsers with
    | (some r, t) => { output := [.success r], exitCode := 0, opened := t }
    | (none, t) => { output := [.failure notFoundMsg none], exitCode := 1, opened := t }
  else
    { output := [.failure notInstalledMsg (some installHint)], exitCode := 1, opened := [] }

/-- Spec-side reading of step 4: the value of the last-scanned record with
the given name, i.e. the first match in the reversed record list. -/
def lastValueNamed (n : String) (cs : List Cookie) : Option String :=
  (cs.reverse.find? (fun c => c.name == n)).map Cookie.value

/-- Overriding an accumulator with the last-scanned value, if any. -/
def override (old new : Option String) : Option String :=
  match new with
  | some v => some v
  | none => old

/-- A store outcome "wins" when it opened, scanned completely, and the
scanned `sessionKey` value is truthy. -/
def wins : BrowserOutcome → Bool
  | .ok cs => truthy (scanCookies cs (none, none)).1
  | _ => false

/-- A store outcome literally "contains a sessionKey record". -/
def containsSessionKey : BrowserOutcome → Bool
  | .ok cs => cs.any (fun c => c.name == "sessionKey")
  | _ => false

/-- Store errors of either exception arm. -/
def storeError : BrowserOutcome → Bool
  | .openError _ => true
  | .scanError _ => true
  | .ok _ => false

/-! ### Helper lemmas about the cookie scan -/

lemma override_none (v : Option String) : override none v = v := by
  cases v <;> rfl

lemma lastValueNamed_cons (n : String) (c : Cookie) (cs : List Cookie) :
    lastValueNamed n (c :: cs) =
      (lastValueNamed n cs).or (if c.name == n then some c.value else none) := by
  unfold lastValueNamed
  rw [List.reverse_cons, List.find?_append]
  cases h : List.find? (fun x => x.name == n) cs.reverse with
  | none =>
    by_cases hc : c.name == n <;>
      simp [List.find?, hc]
  | some x => simp

lemma scan_eq (cs : List Cookie) (acc : Option String × Option String) :
    scanCookies cs acc =
      (override acc.1 (lastValueNamed "sessionKey" cs),
       override acc.2 (lastValueNamed "lastActiveOrg" cs)) := by
  induction cs generalizing acc with
  | nil => simp [scanCookies, lastValueNamed, override]
  | cons c cs ih =>
    obtain ⟨sk, org⟩ := acc
    rw [lastValueNamed_cons, lastValueNamed_cons]
    by_cases h1 : c.name = "sessionKey"
    · have h2 : c.name ≠ "lastActiveOrg" := by simp [h1]
      rw [show scanCookies (c :: cs) (sk, org) = scanCookies cs (some c.value, org) by
        simp [scanCookies, h1]]
      rw [ih]
      cases hsk : lastValueNamed "sessionKey" cs <;>
      cases horg : lastValueNamed "lastActiveOrg" cs <;>
        simp [override, h1, h2, Option.or]
    · by_cases h2 : c.name = "lastActiveOrg"
      · rw [show scanCookies (c :: cs) (sk, org) = scanCookies cs (sk, some c.value) by
          simp [scanCookies, h1, h2]]
        rw [ih]
        cases hsk : lastValueNamed "sessionKey" cs <;>
        cases horg : lastValueNamed "lastActiveOrg" cs <;>
          simp [override, h1, h2, Option.or]
      · rw [show scanCookies (c :: cs) (sk, org) = scanCookies cs (sk, org) by
          simp [scanCookies, h1, h2]]
        rw [ih]
        cases hsk : lastValueNamed "sessionKey" cs <;>
        cases horg : lastValueNamed "lastActiveOrg" cs <;>
          simp [override, h1, h2, Option.or]

/-! ### Helper lemmas about `tryStore` and the probe loop -/

lemma tryStore_eq_none (name : String) (cs : List Cookie)
    (h : truthy (scanCookies cs (none, none)).1 = false) :
    tryStore name cs = none := by
  simp [tryStore, h]

lemma tryStore_isSome (name : String) (cs : List Cookie)
    (h : truthy (scanCookies cs (none, none)).1 = true) :
    (tryStore name cs).isSome = true := by
  simp [tryStore, h]

lemma tryStore_browser (name : String) (cs : List Cookie) (r : SuccessResult)
    (h : tryStore name cs = some r) : r.browser = name := by
  unfold tryStore at h
  dsimp only at h
  split at h
  · rw [← Option.some.inj h]
  · exact Option.noConfusion h

lemma tryStore_org (name : String) (cs : List Cookie) (r : SuccessResult)
    (h : tryStore name cs = some r) :
    r.organizationId =
      (if truthy (scanCookies cs (none, none)).2
        then (scanCookies cs (none, none)).2 else none) := by
  unfold tryStore at h
  dsimp only at h
  split at h
  · rw [← Option.some.inj h]
  · exact Option.noConfusion h

lemma probeLoop_skip (env : String → BrowserOutcome) (name : String) (rest : List String)
    (h : storeError (env name) = true) :
    probeLoop env (name :: rest) =
      ((probeLoop env rest).1, name :: (probeLoop env rest).2) := by
  cases he : env name with
  | openError e => simp [probeLoop, he]
  | scanError l => simp [probeLoop, he]
  | ok cs => simp [storeError, he] at h

lemma probeLoop_skipStore (env : String → BrowserOutcome) (name : String)
    (rest : List String) (cs : List Cookie)
    (h : env name = .ok cs) (h2 : tryStore name cs = none) :
    probeLoop env (name :: rest) =
      ((probeLoop env rest).1, name :: (probeLoop env rest).2) := by
  simp [probeLoop, h, h2]

lemma probeLoop_win (env : String → BrowserOutcome) (name : String)
    (rest : List String) (cs : List Cookie) (r : SuccessResult)
    (h : env name = .ok cs) (h2 : tryStore name cs = some r) :
    probeLoop env (name :: rest) = (some r, [name]) := by
  simp [probeLoop, h, h2]

lemma not_wins_skip (env : String → BrowserOutcome) (name : String) (rest : List String)
    (h : wins (env name) = false) :
    probeLoop env (name :: rest) =
      ((probeLoop env rest).1, name :: (probeLoop env rest).2) := by
  cases he : env name with
  | openError e => exact probeLoop_skip env name rest (by simp [storeError, he])
  | scanError l => exact probeLoop_skip env name rest (by simp [storeError, he])
  | ok cs =>
    refine probeLoop_skipStore env name rest cs he (tryStore_eq_none name cs ?_)
    simpa [wins, he] using h

lemma wins_step (env : String → BrowserOutcome) (name : String)
    (h : wins (env name) = true) :
    ∃ cs r, env name = .ok cs ∧ tryStore name cs = some r := by
  cases he : env name with
  | openError e => simp [wins, he] at h
  | scanError l => simp [wins, he] at h
  | ok cs =>
    have ht : truthy (scanCookies cs (none, none)).1 = true := by
      simpa [wins, he] using h
    obtain ⟨r, hr⟩ := Option.isSome_iff_exists.mp (tryStore_isSome name cs ht)
    exact ⟨cs, r, rfl, hr⟩

lemma probeLoop_none (env : String → BrowserOutcome) (l : List String)
    (h : ∀ b ∈ l, wins (env b) = false) :
    probeLoop env l = (none, l) := by
  induction l with
  | nil => rfl
  | cons name rest ih =>
    rw [not_wins_skip env name rest (h name (by simp)),
      ih (fun b hb => h b (List.mem_cons_of_mem name hb))]

lemma probeLoop_find_some (env : String → BrowserOutcome) (l : List String) (b : String)
    (h : l.find? (fun x => wins (env x)) = some b) :
    ∃ cs r, env b = .ok cs ∧ tryStore b cs = some r ∧ r.browser = b ∧
      probeLoop env l = (some r, l.takeWhile (fun x => !wins (env x)) ++ [b]) := by
  induction l with
  | nil => simp at h
  | cons name rest ih =>
    by_cases hw : wins (env name) = true
    · rw [List.find?_cons_of_pos rest hw] at h
      obtain rfl : name = b := Option.some.inj h
      obtain ⟨cs, r, hcs, htr⟩ := wins_step env name hw
      refine ⟨cs, r, hcs, htr, tryStore_browser name cs r htr, ?_⟩
      rw [probeLoop_win env name rest cs r hcs htr]
      simp [List.takeWhile_cons, hw]
    · rw [List.find?_cons_of_neg rest hw] at h
      obtain ⟨cs, r, hcs, htr, hbr, hloop⟩ := ih h
      refine ⟨cs, r, hcs, htr, hbr, ?_⟩
      have hw' : wins (env name) = false := by simpa using hw
      rw [not_wins_skip env name rest hw', hloop]
      simp [List.takeWhile_cons, hw']

lemma probeLoop_success (env : String → BrowserOutcome) (l : List String)
    (r : SuccessResult) (h : (probeLoop env l).1 = some r) :
    ∃ cs, env r.browser = .ok cs ∧ tryStore r.browser cs = some r := by
  induction l with
  | nil => simp [probeLoop] at h
  | cons name rest ih =>
    cases he : env name with
    | openError e =>
      rw [probeLoop_skip env name rest (by simp [storeError, he])] at h
      exact ih h
    | scanError l2 =>
      rw [probeLoop_skip env name rest (by simp [storeError, he])] at h
      exact ih h
    | ok cs =>
      cases ht : tryStore name cs with
      | none =>
        rw [probeLoop_skipStore env name rest cs he ht] at h
        exact ih h
      | some r2 =>
        rw [probeLoop_win env name rest cs r2 he ht] at h
        obtain rfl : r2 = r := Option.some.inj h
        have hb := tryStore_browser name cs r2 ht
        refine ⟨cs, ?_, ?_⟩
        · rw [hb]; exact he
        · rw [hb]; exact ht

lemma extract_output_success (env : String → BrowserOutcome) (r : SuccessResult)
    (h : (extract_session_key true env).output = [ProbeResult.success r]) :
    (probeLoop env browsers).1 = some r := by
  rcases hq : probeLoop env browsers with ⟨os, t⟩
  cases os with
  | none => simp [extract_session_key, hq] at h
  | some r2 =>
    simp only [extract_session_key, hq, if_true] at h
    obtain rfl : r2 = r := by simpa using h
    rfl

/-! ### Concrete environments for witnesses and counterexamples -/

/-- Chrome's store holds a `sessionKey` record with empty value; firefox's
holds one with a real value. -/
def envC1 : String → BrowserOutcome
  | "chrome" => .ok [⟨"sessionKey", ""⟩]
  | "firefox" => .ok [⟨"sessionKey", "sk-ant-test"⟩]
  | _ => .ok []

/-- Chrome empty; firefox and edge each hold a `sessionKey`. -/
def envC1W : String → BrowserOutcome
  | "firefox" => .ok [⟨"sessionKey", "skF"⟩, ⟨"lastActiveOrg", "org1"⟩]
  | "edge" => .ok [⟨"sessionKey", "skE"⟩]
  | _ => .ok []

/-- Every store opens and is empty. -/
def envEmpty : String → BrowserOutcome := fun _ => .ok []

/-- Chrome locked, firefox fails to open, edge errors mid-scan, chromium
holds the key. -/
def envC4 : String → BrowserOutcome
  | "chrome" => .openError .permission
  | "firefox" => .openError .other
  | "edge" => .scanError [⟨"sessionKey", "half-read"⟩]
  | _ => .ok [⟨"sessionKey", "sk-c4"⟩]

/-- Chrome holds a `sessionKey` and no `lastActiveOrg`. -/
def envC6 : String → BrowserOutcome
  | "chrome" => .ok [⟨"sessionKey", "sk-c6"⟩]
  | _ => .ok []

/-- Chrome holds only `lastActiveOrg`; firefox holds the `sessionKey`. -/
def envC8 : String → BrowserOutcome
  | "chrome" => .ok [⟨"lastActiveOrg", "orgA"⟩]
  | "firefox" => .ok [⟨"sessionKey", "sk-c8"⟩]
  | _ => .ok []

/-- Chrome's `sessionKey` is empty; firefox has a real key and an empty
`lastActiveOrg`. -/
def envC9 : String → BrowserOutcome
  | "chrome" => .ok [⟨"sessionKey", ""⟩]
  | "firefox" => .ok [⟨"sessionKey", "sk-c9"⟩, ⟨"lastActiveOrg", ""⟩]
  | _ => .ok []

/-- Chrome errors mid-scan after a `sessionKey` record; firefox holds the
key. -/
def envC10 : String → BrowserOutcome
  | "chrome" => .scanError [⟨"sessionKey", "sk-discarded"⟩]
  | "firefox" => .ok [⟨"sessionKey", "sk-c10"⟩]
  | _ => .ok []

/-! ### The claims -/

/-- C1 (amended): probing follows the fixed order chrome, firefox, edge,
chromium, and the first browser whose store opens and scans without error
and yields a non-empty `sessionKey` value determines the Success output
(its identifier is the `browser` field); no browser after it is consulted
(the trace of opened stores stops at that browser). -/
theorem claim_c1 (env : String → BrowserOutcome) (b : String)
    (h : browsers.find? (fun x => wins (env x)) = some b) :
    ∃ cs r, env b = .ok cs ∧
      extract_session_key true env =
        { output := [ProbeResult.success r], exitCode := 0,
          opened := browsers.takeWhile (fun x => !wins (env x)) ++ [b] } ∧
      r.browser = b := by
  obtain ⟨cs, r, hcs, htr, hbr, hloop⟩ := probeLoop_find_some env browsers b h
  refine ⟨cs, r, hcs, ?_, hbr⟩
  simp [extract_session_key, hloop]

/-- C1 counterexample to the claim as stated: chrome is the first browser
whose store contains a `sessionKey` record (with value `""`), yet the
Success output is attributed to firefox. -/
theorem claim_c1_cex :
    browsers.find? (fun x => containsSessionKey (envC1 x)) = some "chrome" ∧
    (extract_session_key true envC1).output =
      [ProbeResult.success
        { sessionKey := "sk-ant-test", browser := "firefox", organizationId := none }] :=
  ⟨rfl, rfl⟩

/-- C1 witness: firefox is the first winner in `envC1W`. -/
theorem claim_c1_witness :
    ∃ cs r, envC1W "firefox" = .ok cs ∧
      extract_session_key true envC1W =
        { output := [ProbeResult.success r], exitCode := 0,
          opened := browsers.takeWhile (fun x => !wins (envC1W x)) ++ ["firefox"] } ∧
      r.browser = "firefox" :=
  claim_c1 envC1W "firefox" (by decide)

/-- C2: when the `browser_cookie3` import fails, the program prints exactly
the fixed error object with the install hint, exits non-zero, and never
invokes any browser's store reader. -/
theorem claim_c2 (env : String → BrowserOutcome) :
    extract_session_key false env =
      { output := [ProbeResult.failure notInstalledMsg (some installHint)],
        exitCode := 1, opened := [] } := rfl

/-- C3: if no browser yields a truthy `sessionKey`, the program prints the
generic not-found error and exits 1 having consulted every browser; and
whenever the probe loop returns a success, the exit code is 0 (no exit call
on the success path). -/
theorem claim_c3 (env : String → BrowserOutcome)
    (h : ∀ b ∈ browsers, wins (env b) = false) :
    extract_session_key true env =
      { output := [ProbeResult.failure notFoundMsg none], exitCode := 1,
        opened := browsers } ∧
    ∀ (env2 : String → BrowserOutcome) (r : SuccessResult) (t : List String),
      probeLoop env2 browsers = (some r, t) →
      (extract_session_key true env2).exitCode = 0 := by
  constructor
  · simp [extract_session_key, probeLoop_none env browsers h]
  · intro env2 r t h2
    simp [extract_session_key, h2]

/-- C3 witness: all stores open and are empty. -/
theorem claim_c3_witness :
    extract_session_key true envEmpty =
      { output := [ProbeResult.failure notFoundMsg none], exitCode := 1,
        opened := browsers } :=
  (claim_c3 envEmpty (by decide)).1

/-- C4: a store error on one browser — a locked store (PermissionError), any
other open failure, or an error during the scan — makes the loop proceed to
the next browser, consulting the erroring browser exactly once; no
per-browser store error ever aborts the probe loop. -/
theorem claim_c4 (env : String → BrowserOutcome) (name : String) (rest : List String)
    (h : storeError (env name) = true) :
    probeLoop env (name :: rest) =
      ((probeLoop env rest).1, name :: (probeLoop env rest).2) :=
  probeLoop_skip env name rest h

/-- C4 witness: a locked chrome, a failing firefox, and a mid-scan-error
edge are each skipped. -/
theorem claim_c4_witness :
    (probeLoop envC4 ("chrome" :: ["firefox", "edge", "chromium"]) =
      ((probeLoop envC4 ["firefox", "edge", "chromium"]).1,
        "chrome" :: (probeLoop envC4 ["firefox", "edge", "chromium"]).2)) ∧
    (probeLoop envC4 ("firefox" :: ["edge", "chromium"]) =
      ((probeLoop envC4 ["edge", "chromium"]).1,
        "firefox" :: (probeLoop envC4 ["edge", "chromium"]).2)) ∧
    (probeLoop envC4 ("edge" :: ["chromium"]) =
      ((probeLoop envC4 ["chromium"]).1,
        "edge" :: (probeLoop envC4 ["chromium"]).2)) :=
  ⟨claim_c4 envC4 "chrome" ["firefox", "edge", "chromium"] (by decide),
   claim_c4 envC4 "firefox" ["edge", "chromium"] (by decide),
   claim_c4 envC4 "edge" ["chromium"] (by decide)⟩

/-- C5: scanning a store captures the `sessionKey` and `lastActiveOrg`
values independently, and with duplicate names the last-scanned record's
value is the one kept. -/
theorem claim_c5 (cs : List Cookie) :
    scanCookies cs (none, none) =
      (lastValueNamed "sessionKey" cs, lastValueNamed "lastActiveOrg" cs) := by
  rw [scan_eq, override_none, override_none]

/-- C6: a Success result carries `organizationId` exactly when the store
that yielded the `sessionKey` also yielded a truthy `lastActiveOrg` value,
and carries no organization id otherwise. -/
theorem claim_c6 (env : String → BrowserOutcome) (r : SuccessResult)
    (h : (extract_session_key true env).output = [ProbeResult.success r]) :
    ∃ cs, env r.browser = .ok cs ∧
      r.organizationId =
        (if truthy (scanCookies cs (none, none)).2
          then (scanCookies cs (none, none)).2 else none) := by
  obtain ⟨cs, hcs, htr⟩ := probeLoop_success env browsers r (extract_output_success env r h)
  exact ⟨cs, hcs, tryStore_org r.browser cs r htr⟩

/-- C6 witness: a store with a `sessionKey` but no `lastActiveOrg` yields a
Success without an organization id. -/
theorem claim_c6_witness :
    ∃ cs, envC6 "chrome" = .ok cs ∧
      ({ sessionKey := "sk-c6", browser := "chrome", organizationId := none } :
        SuccessResult).organizationId =
        (if truthy (scanCookies cs (none, none)).2
          then (scanCookies cs (none, none)).2 else none) :=
  claim_c6 envC6
    { sessionKey := "sk-c6", browser := "chrome", organizationId := none } (by decide)

/-- C7: every run prints exactly one line, for both capability values and
every store environment. -/
theorem claim_c7 (capability : Bool) (env : String → BrowserOutcome) :
    (extract_session_key capability env).output.length = 1 := by
  cases capability with
  | false => rfl
  | true =>
    rcases hp : probeLoop env browsers with ⟨os, t⟩
    cases os <;> simp [extract_session_key, hp]

/-- C8: the Success payload is fully determined by the winning browser's own
store via a scan started from reset (empty) accumulators, so no value
captured from an earlier browser's store can appear in a result attributed
to a later browser. -/
theorem claim_c8 (env : String → BrowserOutcome) (r : SuccessResult)
    (h : (extract_session_key true env).output = [ProbeResult.success r]) :
    ∃ cs, env r.browser = .ok cs ∧ tryStore r.browser cs = some r :=
  probeLoop_success env browsers r (extract_output_success env r h)

/-- C8 witness: chrome's store has only `lastActiveOrg`; the Success comes
from firefox with no organization id leaked from chrome. -/
theorem claim_c8_witness :
    ∃ cs, envC8 "firefox" = .ok cs ∧
      tryStore "firefox" cs =
        some { sessionKey := "sk-c8", browser := "firefox", organizationId := none } :=
  claim_c8 envC8
    { sessionKey := "sk-c8", browser := "firefox", organizationId := none } (by decide)

/-- C9: an empty-string cookie value is treated as absent: a `sessionKey`
record with value `""` does not stop the probe (the loop continues to the
next browser), and a `lastActiveOrg` record with value `""` leaves
`organizationId` out of the Success result. -/
theorem claim_c9 (env : String → BrowserOutcome) (name : String) (rest : List String)
    (cs : List Cookie) (h : env name = .ok cs) :
    ((scanCookies cs (none, none)).1 = some "" →
      probeLoop env (name :: rest) =
        ((probeLoop env rest).1, name :: (probeLoop env rest).2)) ∧
    (∀ r, tryStore name cs = some r →
      (scanCookies cs (none, none)).2 = some "" → r.organizationId = none) := by
  constructor
  · intro hsk
    refine probeLoop_skipStore env name rest cs h (tryStore_eq_none name cs ?_)
    rw [hsk]; rfl
  · intro r htr horg
    rw [tryStore_org name cs r htr, horg]
    rfl

/-- C9 witness: chrome with `sessionKey` value `""` is skipped; firefox's
Success omits `organizationId` despite its empty `lastActiveOrg` record. -/
theorem claim_c9_witness :
    (probeLoop envC9 ("chrome" :: ["firefox"]) =
      ((probeLoop envC9 ["firefox"]).1, "chrome" :: (probeLoop envC9 ["firefox"]).2)) ∧
    ({ sessionKey := "sk-c9", browser := "firefox", organizationId := none } :
      SuccessResult).organizationId = none :=
  ⟨(claim_c9 envC9 "chrome" ["firefox"] [⟨"sessionKey", ""⟩] (by decide)).1 (by decide),
   (claim_c9 envC9 "firefox" [] [⟨"sessionKey", "sk-c9"⟩, ⟨"lastActiveOrg", ""⟩]
      (by decide)).2
     { sessionKey := "sk-c9", browser := "firefox", organizationId := none }
     (by decide) (by decide)⟩

/-- C10: an error part-way through scanning a store discards everything
captured from it — the loop result equals that of the remaining browsers
even when the scanned fragment held a `sessionKey` — and any Success comes
from a store that was opened and scanned completely. -/
theorem claim_c10 (env : String → BrowserOutcome) (name : String) (rest : List String)
    (scanned : List Cookie) (h : env name = .scanError scanned) :
    probeLoop env (name :: rest) =
      ((probeLoop env rest).1, name :: (probeLoop env rest).2) ∧
    ∀ r, (extract_session_key true env).output = [ProbeResult.success r] →
      ∃ cs, env r.browser = .ok cs ∧ tryStore r.browser cs = some r := by
  constructor
  · exact probeLoop_skip env name rest (by simp [storeError, h])
  · intro r hout
    exact probeLoop_success env browsers r (extract_output_success env r hout)

/-- C10 witness: chrome errors mid-scan after a `sessionKey` record was
already seen; the run succeeds from firefox's fully scanned store. -/
theorem claim_c10_witness :
    (probeLoop envC10 ("chrome" :: ["firefox"]) =
      ((probeLoop envC10 ["firefox"]).1, "chrome" :: (probeLoop envC10 ["firefox"]).2)) ∧
    ∃ cs, envC10 "firefox" = .ok cs ∧
      tryStore "firefox" cs =
        some { sessionKey := "sk-c10", browser := "firefox", organizationId := none } := by
  have hc := claim_c10 envC10 "chrome" ["firefox"] [⟨"sessionKey", "sk-discarded"⟩]
    (by decide)
  exact ⟨hc.1,
    hc.2 { sessionKey := "sk-c10", browser := "firefox", organizationId := none }
      (by decide)⟩

end SessionKeyScript
